import Mathlib

/-!
Verification development for the synthetic routing-data generator
(`data_generator_script.py`).  The generator is embedded shallowly:

* Python floats are idealised as real numbers (`ℝ`) in the geometric part
  and as rationals (`ℚ`) in the discrete part, so that the discrete part
  stays executable.
* The pseudo-random source (the global `random` module) is modelled as an
  injected pair of streams: a stream of unit-interval rationals standing for
  successive outputs of `random.random()`, and a stream of naturals standing
  for the raw draws behind `random.randint` and `random.choice`.  Each
  primitive consumes one stream position; positions are threaded explicitly
  left to right, in the order the source draws them.
* Calendar dates are modelled as integers (day numbers); `strftime`
  formatting is not modelled, the date value itself is.
* `pandas.DataFrame` values are modelled as lists of records.
-/

/-- Model of the pseudo-random source: a stream `q` of unit-interval
rationals (successive `random.random()` outputs) and a stream `n` of raw
natural draws (behind `random.randint` and `random.choice`). -/
structure Rng where
  q : ℕ → ℚ
  n : ℕ → ℕ

/-- A random stream is well formed when every `random.random()` output lies
in the interval `[0, 1)`. -/
def Rng.wf (g : Rng) : Prop := ∀ i, 0 ≤ g.q i ∧ g.q i < 1

/-- Model of `random.randint(a, b)`: an integer in `[a, b]`, obtained from
the raw draw at position `i` by reduction modulo the size of the range. -/
def randint (a b : ℤ) (g : Rng) (i : ℕ) : ℤ :=
  a + (g.n i : ℤ) % (b - a + 1)

/-- Model of `random.choice(l)`: the element of `l` at the raw draw reduced
modulo the length of `l`.  On the empty list it returns the default element
(the Python original raises there; every call site below guards against it). -/
def choice {α : Type} [Inhabited α] (l : List α) (g : Rng) (i : ℕ) : α :=
  l.getD (g.n i % l.length) default

/-- Probability that a generated location beyond the first becomes a depot
(`DEPOT_PROBABILITY = 0.10`). -/
def DEPOT_PROBABILITY : ℚ := 10 / 100

/-- The fixed product categories (`PRODUCT_TYPES`). -/
def PRODUCT_TYPES : List String := ["Leafy", "Dairy", "Herbs", "Meat", "Fruit"]

/-- The fixed packaging categories (`PACKAGING_TYPES`). -/
def PACKAGING_TYPES : List String := ["Crate", "Box", "Pallet"]

/-- The fixed contamination groups (`CONTAMINATION_GROUPS`). -/
def CONTAMINATION_GROUPS : List String := ["A", "B", "C"]

/-- The fixed handling notes (`HANDLING_NOTES`). -/
def HANDLING_NOTES : List String := ["Fragile", "Keep Upright", "None"]

/-- Vehicle capacity bounds (`MIN_CAPACITY`). -/
def MIN_CAPACITY : ℤ := 100

/-- Vehicle capacity bounds (`MAX_CAPACITY`). -/
def MAX_CAPACITY : ℤ := 500

/-- Hours on the 24-hour clock (`HOURS_IN_DAY`). -/
def HOURS_IN_DAY : ℤ := 24

/-- Model of Python `round(x, 2)`: round `x * 100` to an integer and divide
back.  Mathlib `round` rounds half away from the floor side while Python
rounds half to even; no claim below depends on the direction of exact ties. -/
def round2 (x : ℚ) : ℚ := (round (x * 100) : ℤ) / 100

/-- The attribute bundle attached to every location record, depot or not:
the dictionary returned by `_make_customer_fields`. -/
structure CustomerFields where
  Demand_unit : ℤ
  Product_Type : String
  Temp_Min : ℤ
  Temp_Max : ℤ
  Ripeness_Date : ℤ
  Expiration_Date : ℤ
  Packaging_Type : String
  Contamination_Group : String
  Handling_Notes : String
  Urgency_Score : ℚ
  Time_Window_Start : String
  Time_Window_End : String
deriving Repr, DecidableEq

/-- Embedding of `_make_customer_fields`: draws, in source order, a product
type, a demand, a ripeness offset in `[0, 3]` from the current date `today`,
an expiration offset in `[2, 7]` from the ripeness date, packaging,
contamination group, handling note, an urgency score rounded to 2 decimals,
and a time-window slot.  Returns the bundle and the next stream position. -/
def make_customer_fields (g : Rng) (i : ℕ) (today : ℤ) : CustomerFields × ℕ :=
  let ptype := choice PRODUCT_TYPES g i
  let tminmax : ℤ × ℤ :=
    if ptype = "Leafy" then (1, 7)
    else if ptype = "Dairy" then (0, 4)
    else if ptype = "Herbs" then (5, 10)
    else if ptype = "Meat" then (-2, 0)
    else (4, 8)
  let demand := randint 1 25 g (i + 1)
  let ripeness_offset := randint 0 3 g (i + 2)
  let ripeness_date := today + ripeness_offset
  let exp_offset := randint 2 7 g (i + 3)
  let exp_date := ripeness_date + exp_offset
  let packaging := choice PACKAGING_TYPES g (i + 4)
  let contam_grp := choice CONTAMINATION_GROUPS g (i + 5)
  let handling := choice HANDLING_NOTES g (i + 6)
  let urgency := round2 (g.q (i + 7))
  let tw_choice := choice ["morning", "afternoon", "evening"] g (i + 8)
  let tw : String × String :=
    if tw_choice = "morning" then ("08:00", "12:00")
    else if tw_choice = "afternoon" then ("12:00", "17:00")
    else ("17:00", "20:00")
  (⟨demand, ptype, tminmax.1, tminmax.2, ripeness_date, exp_date, packaging,
    contam_grp, handling, urgency, tw.1, tw.2⟩, i + 9)

/-- Zero-padded three-digit index, the `f"{i:03d}"` part of record ids. -/
def pad3 (i : ℕ) : String :=
  if i < 10 then "00" ++ toString i
  else if i < 100 then "0" ++ toString i
  else toString i

/-- One location row of the generated table. -/
structure Location where
  Location_ID : String
  Latitude : ℝ
  Longitude : ℝ
  Depot_Flag : String
  fields : CustomerFields

/-- One vehicle row of the generated table. -/
structure Vehicle where
  Vehicle_ID : String
  Capacity_boxes : ℤ
  Temp_Min : ℤ
  Temp_Max : ℤ
  Start_Location : String
  Available_From : String
  Available_Until : String
deriving Repr, DecidableEq

/-- Zero-padded hour formatting, the `f"{h:02d}:00"` part of the source. -/
def fmtHour (h : ℤ) : String :=
  (if h < 10 then "0" else "") ++ toString h ++ ":00"

/-- The three fixed vehicle temperature bands of the source. -/
def VEHICLE_TEMP_BANDS : List (ℤ × ℤ) := [(-2, 10), (0, 8), (-5, 4)]

/-- The loop body of `generate_synthetic_vehicles`: builds `k` vehicle rows
starting at vehicle number `v` and stream position `i`, drawing per vehicle,
in source order, a capacity, a temperature band, a start hour, an end hour
at least the start hour, and a start location from the depot pool. -/
def genVehAux (g : Rng) (depot_ids : List String) : ℕ → ℕ → ℕ → List Vehicle
  | _, _, 0 => []
  | i, v, k + 1 =>
    let cap := randint MIN_CAPACITY MAX_CAPACITY g i
    let band := choice VEHICLE_TEMP_BANDS g (i + 1)
    let start_hour := randint 0 (HOURS_IN_DAY - 1) g (i + 2)
    let end_hour := randint start_hour (HOURS_IN_DAY - 1) g (i + 3)
    let start_loc := choice depot_ids g (i + 4)
    ⟨"V" ++ pad3 v, cap, band.1, band.2, start_loc,
      fmtHour start_hour, fmtHour end_hour⟩ ::
      genVehAux g depot_ids (i + 5) (v + 1) k

/-- Embedding of `generate_synthetic_vehicles`: the fleet size is
`ceil(0.30 * len(df))` raised to at least 1, the depot pool is the list of
`Location_ID`s of rows whose `Depot_Flag` is the literal `"TRUE"`, and an
empty pool is a `ValueError`, modelled as `Except.error`. -/
def generate_synthetic_vehicles (all_locations_df : List Location) (g : Rng)
    (i : ℕ) : Except String (List Vehicle) :=
  let total_locations := all_locations_df.length
  let num_vehicles0 := Nat.ceil ((30 : ℚ) / 100 * total_locations)
  let num_vehicles := if num_vehicles0 < 1 then 1 else num_vehicles0
  let depot_ids :=
    (all_locations_df.filter (fun l => l.Depot_Flag = "TRUE")).map
      (fun l => l.Location_ID)
  if depot_ids = [] then
    Except.error ("No depot found in locations data; cannot generate vehicles.")
  else
    Except.ok (genVehAux g depot_ids i 1 num_vehicles)

/-- Earth mean radius in miles, the `R_EARTH_MILES` constant of the source. -/
def R_EARTH_MILES : ℝ := 3958.8

/-- Degrees to radians, `math.radians`. -/
noncomputable def radiansOf (x : ℝ) : ℝ := x * Real.pi / 180

/-- Radians to degrees, `math.degrees`. -/
noncomputable def degreesOf (x : ℝ) : ℝ := x * 180 / Real.pi

/-- Model of Python `math.atan2(y, x)`: the argument of the complex number
with real part `x` and imaginary part `y`, in `(-pi, pi]`, with
`atan2 0 0 = 0`, exactly as in Python. -/
noncomputable def atan2 (y x : ℝ) : ℝ := Complex.arg ⟨x, y⟩

/-- Embedding of `_random_point_within_radius`, with the two random draws
made explicit: `u` stands for the `random.random()` output and `bearing`
for the `random.uniform(0, 2 * math.pi)` output.  Returns the sampled
`(latitude, longitude)` in degrees. -/
noncomputable def random_point_within_radius (lat_center lon_center
    radius_miles u bearing : ℝ) : ℝ × ℝ :=
  let ang_rad := radius_miles / R_EARTH_MILES
  let cos_theta := 1 - u * (1 - Real.cos ang_rad)
  let theta := Real.arccos cos_theta
  let lat0 := radiansOf lat_center
  let lon0 := radiansOf lon_center
  let lat_new := Real.arcsin
    (Real.sin lat0 * Real.cos theta +
      Real.cos lat0 * Real.sin theta * Real.cos bearing)
  let lon_new := lon0 + atan2
    (Real.sin bearing * Real.sin theta * Real.cos lat0)
    (Real.cos theta - Real.sin lat0 * Real.sin lat_new)
  (degreesOf lat_new, degreesOf lon_new)

/-- Model of Python `round(x, 6)`, used for the stored coordinates. -/
noncomputable def round6 (x : ℝ) : ℝ := (round (x * 1000000) : ℤ) / 1000000

/-- Great-circle distance in miles between two points given in decimal
degrees, through the spherical law of cosines: the central angle is the
arccosine of the inner product of the two unit direction vectors. -/
noncomputable def greatCircleDistMiles (lat_a lon_a lat_b lon_b : ℝ) : ℝ :=
  R_EARTH_MILES * Real.arccos
    (Real.sin (radiansOf lat_a) * Real.sin (radiansOf lat_b) +
      Real.cos (radiansOf lat_a) * Real.cos (radiansOf lat_b) *
        Real.cos (radiansOf lon_a - radiansOf lon_b))

/-- The loop body of `generate_synthetic_locations`: builds `k` location
rows starting at location number `idx` and stream position `i`.  Per row,
in source order: a sampled point (`u` then bearing, two stream positions),
the depot coin flip (`random.random() < DEPOT_PROBABILITY`), and a customer
bundle.  Returns the rows and the next stream position. -/
noncomputable def genLocAux (g : Rng) (lat_center lon_center radius_miles : ℝ)
    (today : ℤ) : ℕ → ℕ → ℕ → List Location × ℕ
  | _, i, 0 => ([], i)
  | idx, i, k + 1 =>
    let p := random_point_within_radius lat_center lon_center radius_miles
      ((g.q i : ℚ) : ℝ) (2 * Real.pi * ((g.q (i + 1) : ℚ) : ℝ))
    let is_depot := g.q (i + 2) < DEPOT_PROBABILITY
    let cf := make_customer_fields g (i + 3) today
    let rest := genLocAux g lat_center lon_center radius_miles today
      (idx + 1) cf.2 k
    (⟨"L" ++ pad3 idx, round6 p.1, round6 p.2,
      if is_depot then "TRUE" else "FALSE", cf.1⟩ :: rest.1, rest.2)

/-- Embedding of `generate_synthetic_locations`: the first row is the fixed
depot `L001` at the rounded center, the remaining `num_records - 1` rows are
sampled around the center.  Returns the rows and next stream position. -/
noncomputable def generate_synthetic_locations (num_records : ℕ)
    (lat_center lon_center radius_miles : ℝ) (g : Rng) (i : ℕ) (today : ℤ) :
    List Location × ℕ :=
  let cf := make_customer_fields g i today
  let rest := genLocAux g lat_center lon_center radius_miles today 2 cf.2
    (num_records - 1)
  (⟨"L001", round6 lat_center, round6 lon_center, "TRUE", cf.1⟩ :: rest.1,
    rest.2)

/-- One whole generation run (the data-producing part of `main`): the
location table first, then the vehicle table built from it, consuming the
random stream left to right. -/
noncomputable def generateRun (num_records : ℕ)
    (lat_center lon_center radius_miles : ℝ) (g : Rng) (today : ℤ) :
    List Location × Except String (List Vehicle) :=
  let locs := generate_synthetic_locations num_records lat_center lon_center
    radius_miles g 0 today
  (locs.1, generate_synthetic_vehicles locs.1 g locs.2)

/-- A fixed all-zero random stream, used as a concrete instantiation. -/
def rngZero : Rng := ⟨fun _ => 0, fun _ => 0⟩

/-- A concrete attribute bundle, used to build concrete location rows. -/
def sampleBundle : CustomerFields :=
  ⟨1, "Leafy", 1, 7, 0, 2, "Crate", "A", "None", 0, "08:00", "12:00"⟩

/-- A concrete depot row, used as a concrete one-row locations table. -/
def sampleDepotRow : Location := ⟨"L001", 0, 0, "TRUE", sampleBundle⟩

theorem randint_mem (a b : ℤ) (g : Rng) (i : ℕ) (h : a ≤ b) :
    a ≤ randint a b g i ∧ randint a b g i ≤ b := by
  unfold randint
  have h1 := Int.emod_nonneg (g.n i : ℤ) (by omega : b - a + 1 ≠ 0)
  have h2 := Int.emod_lt_of_pos (g.n i : ℤ) (by omega : 0 < b - a + 1)
  omega

theorem choice_mem {α : Type} [Inhabited α] (l : List α) (g : Rng) (i : ℕ)
    (h : l ≠ []) : choice l g i ∈ l := by
  unfold choice
  have hlt : g.n i % l.length < l.length :=
    Nat.mod_lt _ (List.length_pos.mpr h)
  rw [List.getD_eq_getElem l default hlt]
  exact List.getElem_mem hlt

theorem genVehAux_length (g : Rng) (d : List String) (i v k : ℕ) :
    (genVehAux g d i v k).length = k := by
  induction k generalizing i v with
  | zero => rfl
  | succ k ih => simp [genVehAux, ih]

theorem genVehAux_start_mem (g : Rng) (d : List String) (hd : d ≠ [])
    (k : ℕ) : ∀ i v, ∀ veh ∈ genVehAux g d i v k, veh.Start_Location ∈ d := by
  induction k with
  | zero => intro i v veh hveh; simp [genVehAux] at hveh
  | succ k ih =>
    intro i v veh hveh
    simp only [genVehAux, List.mem_cons] at hveh
    rcases hveh with hveh | hveh
    · subst hveh
      exact choice_mem d g (i + 4) hd
    · exact ih (i + 5) (v + 1) veh hveh

/-- C6: every generated attribute bundle has its ripeness date between the
generation-run current date and three days later, and its expiration date
between two and seven days after the ripeness date. -/
theorem customer_dates_invariant (g : Rng) (i : ℕ) (today : ℤ) :
    today ≤ (make_customer_fields g i today).1.Ripeness_Date ∧
    (make_customer_fields g i today).1.Ripeness_Date ≤ today + 3 ∧
    2 ≤ (make_customer_fields g i today).1.Expiration_Date -
      (make_customer_fields g i today).1.Ripeness_Date ∧
    (make_customer_fields g i today).1.Expiration_Date -
      (make_customer_fields g i today).1.Ripeness_Date ≤ 7 := by
  have h1 := randint_mem 0 3 g (i + 2) (by norm_num)
  have h2 := randint_mem 2 7 g (i + 3) (by norm_num)
  simp only [make_customer_fields]
  omega

/-- C5: the vehicle builder fails with the configuration error exactly when
the input table has no row flagged as a depot, and in the error case no
vehicle rows are produced. -/
theorem vehicles_error_iff (df : List Location) (g : Rng) (i : ℕ) :
    (∃ msg, generate_synthetic_vehicles df g i = Except.error msg) ↔
      ∀ loc ∈ df, loc.Depot_Flag ≠ "TRUE" := by
  have hiff : ((df.filter (fun l => l.Depot_Flag = "TRUE")).map
      (fun l => l.Location_ID) = []) ↔ ∀ loc ∈ df, loc.Depot_Flag ≠ "TRUE" := by
    rw [List.map_eq_nil_iff, List.filter_eq_nil_iff]
    simp
  unfold generate_synthetic_vehicles
  by_cases h : (df.filter (fun l => l.Depot_Flag = "TRUE")).map
      (fun l => l.Location_ID) = []
  · simp only [if_pos h]
    exact ⟨fun _ => hiff.mp h, fun _ => ⟨_, rfl⟩⟩
  · simp only [if_neg h]
    constructor
    · rintro ⟨msg, hmsg⟩
      exact absurd hmsg (by simp)
    · intro hall
      exact absurd (hiff.mpr hall) h

/-- C2: whenever the input table has some depot-flagged row, the vehicle
builder succeeds and every produced vehicle starts at the identifier of an
input row whose depot flag is the literal TRUE. -/
theorem vehicles_start_at_depot (df : List Location) (g : Rng) (i : ℕ)
    (h : ∃ loc ∈ df, loc.Depot_Flag = "TRUE") :
    ∃ vs, generate_synthetic_vehicles df g i = Except.ok vs ∧
      ∀ v ∈ vs, ∃ loc ∈ df, loc.Depot_Flag = "TRUE" ∧
        v.Start_Location = loc.Location_ID := by
  obtain ⟨loc, hmem, hflag⟩ := h
  have hne : (df.filter (fun l => l.Depot_Flag = "TRUE")).map
      (fun l => l.Location_ID) ≠ [] := by
    intro h0
    rw [List.map_eq_nil_iff, List.filter_eq_nil_iff] at h0
    exact h0 loc hmem (by simp [hflag])
  unfold generate_synthetic_vehicles
  rw [if_neg hne]
  refine ⟨_, rfl, ?_⟩
  intro v hv
  have hsv := genVehAux_start_mem g _ hne _ _ _ v hv
  obtain ⟨loc2, hloc2, hid⟩ := List.mem_map.mp hsv
  have hf := List.mem_filter.mp hloc2
  exact ⟨loc2, hf.1, by simpa using hf.2, hid.symm⟩

/-- Witness for C2 at a concrete one-row table and fixed stream. -/
theorem vehicles_start_at_depot_witness :
    (∃ loc ∈ [sampleDepotRow], loc.Depot_Flag = "TRUE") ∧
    ∃ vs, generate_synthetic_vehicles [sampleDepotRow] rngZero 0 =
        Except.ok vs ∧
      ∀ v ∈ vs, ∃ loc ∈ [sampleDepotRow], loc.Depot_Flag = "TRUE" ∧
        v.Start_Location = loc.Location_ID :=
  have h : ∃ loc ∈ [sampleDepotRow], loc.Depot_Flag = "TRUE" :=
    ⟨sampleDepotRow, List.mem_singleton.mpr rfl, rfl⟩
  ⟨h, vehicles_start_at_depot [sampleDepotRow] rngZero 0 h⟩

/-- C3: whenever the vehicle builder succeeds on a table of N rows, it
returns exactly max 1 (ceil of 0.30 N) vehicle rows. -/
theorem fleet_size_eq (df : List Location) (g : Rng) (i : ℕ)
    (h : ∃ loc ∈ df, loc.Depot_Flag = "TRUE") :
    ∃ vs, generate_synthetic_vehicles df g i = Except.ok vs ∧
      vs.length = max 1 (Nat.ceil ((30 : ℚ) / 100 * df.length)) := by
  obtain ⟨loc, hmem, hflag⟩ := h
  have hne : (df.filter (fun l => l.Depot_Flag = "TRUE")).map
      (fun l => l.Location_ID) ≠ [] := by
    intro h0
    rw [List.map_eq_nil_iff, List.filter_eq_nil_iff] at h0
    exact h0 loc hmem (by simp [hflag])
  unfold generate_synthetic_vehicles
  rw [if_neg hne]
  refine ⟨_, rfl, ?_⟩
  rw [genVehAux_length]
  split <;> omega

/-- Witness for C3 at a concrete one-row table and fixed stream. -/
theorem fleet_size_eq_witness :
    (∃ loc ∈ [sampleDepotRow], loc.Depot_Flag = "TRUE") ∧
    ∃ vs, generate_synthetic_vehicles [sampleDepotRow] rngZero 0 =
        Except.ok vs ∧
      vs.length = max 1 (Nat.ceil ((30 : ℚ) / 100 *
        ([sampleDepotRow] : List Location).length)) :=
  have h : ∃ loc ∈ [sampleDepotRow], loc.Depot_Flag = "TRUE" :=
    ⟨sampleDepotRow, List.mem_singleton.mpr rfl, rfl⟩
  ⟨h, fleet_size_eq [sampleDepotRow] rngZero 0 h⟩

theorem genLocAux_length (g : Rng) (a b c : ℝ) (today : ℤ) (k : ℕ) :
    ∀ idx i, ((genLocAux g a b c today idx i k).1).length = k := by
  induction k with
  | zero => intro idx i; rfl
  | succ k ih => intro idx i; simp [genLocAux, ih]

/-- C4: for at least one requested record, the location builder returns
exactly that many rows, the first row is the fixed depot L001 at the rounded
center, and with exactly one requested record that depot row is the whole
table. -/
theorem locations_shape (num_records : ℕ)
    (lat_center lon_center radius_miles : ℝ) (g : Rng) (i : ℕ) (today : ℤ)
    (h : 1 ≤ num_records) :
    ((generate_synthetic_locations num_records lat_center lon_center
        radius_miles g i today).1).length = num_records ∧
    ∃ first rest,
      (generate_synthetic_locations num_records lat_center lon_center
        radius_miles g i today).1 = first :: rest ∧
      first.Location_ID = "L001" ∧
      first.Latitude = round6 lat_center ∧
      first.Longitude = round6 lon_center ∧
      first.Depot_Flag = "TRUE" ∧
      (num_records = 1 →
        (generate_synthetic_locations num_records lat_center lon_center
          radius_miles g i today).1 = [first]) := by
  constructor
  · simp only [generate_synthetic_locations, List.length_cons,
      genLocAux_length]
    omega
  · refine ⟨_, _, rfl, rfl, rfl, rfl, rfl, ?_⟩
    intro h1
    subst h1
    rfl

/-- Witness for C4 at one requested record around the zero center. -/
theorem locations_shape_witness :
    1 ≤ 1 ∧
    (((generate_synthetic_locations 1 0 0 0 rngZero 0 0).1).length = 1 ∧
    ∃ first rest,
      (generate_synthetic_locations 1 0 0 0 rngZero 0 0).1 = first :: rest ∧
      first.Location_ID = "L001" ∧
      first.Latitude = round6 0 ∧
      first.Longitude = round6 0 ∧
      first.Depot_Flag = "TRUE" ∧
      (1 = 1 → (generate_synthetic_locations 1 0 0 0 rngZero 0 0).1 =
        [first])) :=
  ⟨le_refl 1, locations_shape 1 0 0 0 rngZero 0 0 (le_refl 1)⟩

/-- Amended C7: with the generation-run current date fixed along with the
inputs, two runs over extensionally equal random streams produce identical
location and vehicle outputs. -/
theorem run_deterministic (g1 g2 : Rng) (num_records : ℕ)
    (lat_center lon_center radius_miles : ℝ) (today : ℤ)
    (hq : g1.q = g2.q) (hn : g1.n = g2.n) :
    generateRun num_records lat_center lon_center radius_miles g1 today =
    generateRun num_records lat_center lon_center radius_miles g2 today := by
  obtain ⟨q1, n1⟩ := g1
  obtain ⟨q2, n2⟩ := g2
  cases hq
  cases hn
  rfl

/-- Witness for the amended C7 at a concrete stream and input. -/
theorem run_deterministic_witness :
    (rngZero.q = rngZero.q ∧ rngZero.n = rngZero.n) ∧
    generateRun 1 0 0 0 rngZero 0 = generateRun 1 0 0 0 rngZero 0 :=
  ⟨⟨rfl, rfl⟩, run_deterministic rngZero rngZero 1 0 0 0 0 rfl rfl⟩

/-- Counterexample to C7 as stated: with the random stream and the input
tuple fixed, two runs on different generation-run current dates produce
different outputs (the ripeness dates move with the wall clock). -/
theorem run_date_counterexample :
    generateRun 1 0 0 0 rngZero 0 ≠ generateRun 1 0 0 0 rngZero 1 := by
  intro h
  have h2 := congrArg
    (fun p => p.1.map (fun l => l.fields.Ripeness_Date)) h
  simp only [generateRun, generate_synthetic_locations, genLocAux,
    make_customer_fields, randint, rngZero, List.map_cons, List.map_nil,
    Nat.sub_self, List.cons.injEq, and_true] at h2
  omega

/-- A fixed random stream whose unit draws all equal 0.999. -/
def rng999 : Rng := ⟨fun _ => 999 / 1000, fun _ => 0⟩

theorem round_of_999 : round ((999 : ℚ) / 1000 * 100) = 100 := by
  rw [show (999 : ℚ) / 1000 * 100 = 999 / 10 by norm_num, round_eq,
    show (999 : ℚ) / 10 + 1 / 2 = 1004 / 10 by norm_num,
    Int.floor_eq_iff]
  constructor <;> norm_num

/-- Counterexample to C9 as stated: the unit draw 0.999 lies in the interval
zero to one, yet the generated urgency score it produces is 1.00, which is
strictly above every member of the claimed realizable set, whose largest
member is 0.99. -/
theorem urgency_above_99 :
    0 ≤ (999 / 1000 : ℚ) ∧ (999 / 1000 : ℚ) < 1 ∧
    (99 : ℚ) / 100 < (make_customer_fields rng999 0 0).1.Urgency_Score := by
  refine ⟨by norm_num, by norm_num, ?_⟩
  simp only [make_customer_fields, rng999, round2]
  rw [round_of_999]
  norm_num

/-- Amended C9: the urgency score of a generated record is always a multiple
of 0.01 between 0.00 and 1.00 inclusive, and every such multiple is
realizable by some unit draw in the interval zero to one. -/
theorem urgency_realizable :
    (∀ g : Rng, ∀ i : ℕ, ∀ today : ℤ,
      0 ≤ g.q (i + 7) → g.q (i + 7) < 1 →
      ∃ k : ℕ, k ≤ 100 ∧
        (make_customer_fields g i today).1.Urgency_Score = (k : ℚ) / 100) ∧
    (∀ k : ℕ, k ≤ 100 → ∃ g : Rng, ∃ i : ℕ, ∃ today : ℤ,
      0 ≤ g.q (i + 7) ∧ g.q (i + 7) < 1 ∧
      (make_customer_fields g i today).1.Urgency_Score = (k : ℚ) / 100) := by
  constructor
  · intro g i today hu0 hu1
    have hurg : (make_customer_fields g i today).1.Urgency_Score =
        round2 (g.q (i + 7)) := by
      simp only [make_customer_fields]
    have hfloor : round (g.q (i + 7) * 100) = ⌊g.q (i + 7) * 100 + 1 / 2⌋ :=
      round_eq _
    have hm0 : 0 ≤ round (g.q (i + 7) * 100) := by
      rw [hfloor]
      exact Int.le_floor.mpr (by push_cast; linarith)
    have hm1 : round (g.q (i + 7) * 100) < 101 := by
      rw [hfloor]
      exact Int.floor_lt.mpr (by push_cast; linarith)
    refine ⟨(round (g.q (i + 7) * 100)).toNat, by omega, ?_⟩
    rw [hurg, round2]
    congr 1
    exact_mod_cast (Int.toNat_of_nonneg hm0).symm
  · intro k hk
    rcases Nat.lt_or_ge k 100 with hlt | hge
    · refine ⟨⟨fun _ => (k : ℚ) / 100, fun _ => 0⟩, 0, 0, by positivity,
        ?_, ?_⟩
      · rw [div_lt_one (by norm_num)]
        exact_mod_cast hlt
      · simp only [make_customer_fields, round2]
        rw [div_mul_cancel₀ ((k : ℚ)) (by norm_num : (100 : ℚ) ≠ 0),
          round_natCast]
        norm_num
    · have hk100 : k = 100 := le_antisymm hk hge
      subst hk100
      refine ⟨rng999, 0, 0, by norm_num [rng999], by norm_num [rng999], ?_⟩
      simp only [make_customer_fields, rng999, round2]
      rw [round_of_999]
      norm_num

/-- Witness for the amended C9 at the all-zero stream. -/
theorem urgency_realizable_witness :
    (0 ≤ rngZero.q (0 + 7) ∧ rngZero.q (0 + 7) < 1) ∧
    ∃ k : ℕ, k ≤ 100 ∧
      (make_customer_fields rngZero 0 0).1.Urgency_Score = (k : ℚ) / 100 :=
  ⟨⟨by norm_num [rngZero], by norm_num [rngZero]⟩,
    urgency_realizable.1 rngZero 0 0 (by norm_num [rngZero])
      (by norm_num [rngZero])⟩

theorem deg_rad (x : ℝ) : degreesOf (radiansOf x) = x := by
  unfold degreesOf radiansOf
  field_simp

theorem rad_in_pi_half (x : ℝ) (h0 : -90 ≤ x) (h1 : x ≤ 90) :
    -(Real.pi / 2) ≤ radiansOf x ∧ radiansOf x ≤ Real.pi / 2 := by
  unfold radiansOf
  have hp := Real.pi_pos
  have hu := mul_le_mul_of_nonneg_right h1 hp.le
  have hl := mul_le_mul_of_nonneg_right h0 hp.le
  constructor <;> linarith

theorem atan2_zero_of_nonneg (t : ℝ) (ht : 0 ≤ t) : atan2 0 t = 0 := by
  unfold atan2
  rw [show (⟨t, 0⟩ : ℂ) = (t : ℂ) from Complex.ext rfl rfl]
  exact Complex.arg_ofReal_of_nonneg ht

theorem cap_poly_identity (A C T S B D : ℝ) (hAC : A ^ 2 + C ^ 2 = 1)
    (hTS : T ^ 2 + S ^ 2 = 1) (hBD : B ^ 2 + D ^ 2 = 1) :
    C ^ 2 * (1 - (A * T + C * S * B) ^ 2) =
      (T - A * (A * T + C * S * B)) ^ 2 + (D * S * C) ^ 2 := by
  linear_combination
    (-C ^ 2 * (T ^ 2 + S ^ 2 * B ^ 2) + 2 * C * T * (C * T - A * S * B) -
      T ^ 2 * (A ^ 2 + C ^ 2 - 1)) * hAC +
    (-C ^ 2) * hTS + (-C ^ 2 * S ^ 2) * hBD

theorem dest_sin_bounds (lat0 θ b : ℝ) (hc : 0 ≤ Real.cos lat0)
    (hS : 0 ≤ Real.sin θ) :
    -1 ≤ Real.sin lat0 * Real.cos θ + Real.cos lat0 * Real.sin θ * Real.cos b ∧
    Real.sin lat0 * Real.cos θ + Real.cos lat0 * Real.sin θ * Real.cos b ≤ 1 := by
  have hCS : 0 ≤ Real.cos lat0 * Real.sin θ := mul_nonneg hc hS
  have hadd := Real.sin_add lat0 θ
  have hsub := Real.sin_sub lat0 θ
  have h1 := Real.sin_le_one (lat0 + θ)
  have h2 := Real.neg_one_le_sin (lat0 - θ)
  have hb1 := Real.cos_le_one b
  have hb2 := Real.neg_one_le_cos b
  constructor <;>
    nlinarith [mul_le_mul_of_nonneg_left hb1 hCS,
      mul_le_mul_of_nonneg_left hb2 hCS]

/-- C10: the sampler is even in the radius, because the radius enters the
computation only through the cosine of the angular radius. -/
theorem sampler_even_in_radius (lat_center lon_center radius_miles u
    bearing : ℝ) :
    random_point_within_radius lat_center lon_center (-radius_miles) u
      bearing =
    random_point_within_radius lat_center lon_center radius_miles u
      bearing := by
  simp only [random_point_within_radius, neg_div, Real.cos_neg]

/-- Amended C8: for centers whose latitude lies in the range -90 to 90
degrees, a zero radius makes the sampler return exactly the center point,
for every pair of draws. -/
theorem sampler_zero_radius (lat_center lon_center u bearing : ℝ)
    (hlat0 : -90 ≤ lat_center) (hlat1 : lat_center ≤ 90)
    (hu0 : 0 ≤ u) (hu1 : u < 1) (hb0 : 0 ≤ bearing)
    (hb1 : bearing < 2 * Real.pi) :
    random_point_within_radius lat_center lon_center 0 u bearing =
      (lat_center, lon_center) := by
  obtain ⟨hr0, hr1⟩ := rad_in_pi_half lat_center hlat0 hlat1
  have harcsin : Real.arcsin (Real.sin (radiansOf lat_center)) =
      radiansOf lat_center := Real.arcsin_sin hr0 hr1
  unfold random_point_within_radius
  simp only [zero_div, Real.cos_zero, sub_self, mul_zero, sub_zero,
    Real.arccos_one, Real.sin_zero, Real.cos_zero, mul_one, zero_mul,
    add_zero]
  rw [harcsin]
  rw [atan2_zero_of_nonneg _
    (by nlinarith [Real.sin_le_one (radiansOf lat_center),
      Real.neg_one_le_sin (radiansOf lat_center)])]
  rw [add_zero, deg_rad, deg_rad]

/-- Witness for the amended C8 at the zero center with zero draws. -/
theorem sampler_zero_radius_witness :
    (-90 ≤ (0 : ℝ) ∧ (0 : ℝ) ≤ 90 ∧ 0 ≤ (0 : ℝ) ∧ (0 : ℝ) < 1 ∧
      0 ≤ (0 : ℝ) ∧ (0 : ℝ) < 2 * Real.pi) ∧
    random_point_within_radius 0 0 0 0 0 = (0, 0) :=
  ⟨⟨by norm_num, by norm_num, le_refl 0, by norm_num, le_refl 0,
      by positivity⟩,
    sampler_zero_radius 0 0 0 0 (by norm_num) (by norm_num) (le_refl 0)
      (by norm_num) (le_refl 0) (by positivity)⟩

/-- Counterexample to C8 as stated: at the coordinate-valid draws u equal 0
and bearing equal 0, the center with latitude 180 degrees and longitude 0 is
not returned unchanged by the zero-radius sampler, which yields latitude 0
instead. -/
theorem sampler_zero_radius_counterexample :
    0 ≤ (0 : ℝ) ∧ (0 : ℝ) < 1 ∧ 0 ≤ (0 : ℝ) ∧ (0 : ℝ) < 2 * Real.pi ∧
    (random_point_within_radius 180 0 0 0 0).1 ≠ 180 := by
  refine ⟨le_refl 0, by norm_num, le_refl 0, by positivity, ?_⟩
  have hrad : radiansOf 180 = Real.pi := by unfold radiansOf; ring
  unfold random_point_within_radius
  simp only [hrad, zero_div, Real.cos_zero, sub_self, mul_zero, sub_zero,
    Real.arccos_one, Real.sin_zero, Real.cos_zero, mul_one, zero_mul,
    add_zero, Real.sin_pi, Real.arcsin_zero]
  unfold degreesOf
  norm_num

theorem dest_inner_eq (lat0 θ b : ℝ) (hc : 0 ≤ Real.cos lat0)
    (hθ0 : 0 ≤ θ) (hθπ : θ ≤ Real.pi) :
    Real.sin (Real.arcsin (Real.sin lat0 * Real.cos θ +
        Real.cos lat0 * Real.sin θ * Real.cos b)) * Real.sin lat0 +
      Real.cos (Real.arcsin (Real.sin lat0 * Real.cos θ +
        Real.cos lat0 * Real.sin θ * Real.cos b)) * Real.cos lat0 *
        Real.cos (atan2 (Real.sin b * Real.sin θ * Real.cos lat0)
          (Real.cos θ - Real.sin lat0 *
            Real.sin (Real.arcsin (Real.sin lat0 * Real.cos θ +
              Real.cos lat0 * Real.sin θ * Real.cos b)))) =
      Real.cos θ := by
  have hS : 0 ≤ Real.sin θ := Real.sin_nonneg_of_nonneg_of_le_pi hθ0 hθπ
  obtain ⟨hs1, hs2⟩ := dest_sin_bounds lat0 θ b hc hS
  set s := Real.sin lat0 * Real.cos θ + Real.cos lat0 * Real.sin θ *
    Real.cos b with hs_def
  have hsin : Real.sin (Real.arcsin s) = s := Real.sin_arcsin hs1 hs2
  have hcos : Real.cos (Real.arcsin s) = Real.sqrt (1 - s ^ 2) :=
    Real.cos_arcsin s
  rw [hsin, hcos]
  set x := Real.cos θ - Real.sin lat0 * s with hx_def
  set y := Real.sin b * Real.sin θ * Real.cos lat0 with hy_def
  have hs_sq : 0 ≤ 1 - s ^ 2 := by nlinarith
  have key : (Real.cos lat0 * Real.sqrt (1 - s ^ 2)) ^ 2 = x ^ 2 + y ^ 2 := by
    rw [mul_pow, Real.sq_sqrt hs_sq, hx_def, hy_def, hs_def]
    have h9 := cap_poly_identity (Real.sin lat0) (Real.cos lat0) (Real.cos θ)
      (Real.sin θ) (Real.cos b) (Real.sin b) (Real.sin_sq_add_cos_sq lat0)
      (by linarith [Real.sin_sq_add_cos_sq θ])
      (by linarith [Real.sin_sq_add_cos_sq b])
    linear_combination h9
  have habs : Complex.abs ⟨x, y⟩ = Real.cos lat0 * Real.sqrt (1 - s ^ 2) := by
    rw [Complex.abs_apply, Complex.normSq_mk,
      show x * x + y * y = (Real.cos lat0 * Real.sqrt (1 - s ^ 2)) ^ 2 by
        rw [key]; ring]
    exact Real.sqrt_sq (mul_nonneg hc (Real.sqrt_nonneg _))
  unfold atan2
  by_cases hz : (⟨x, y⟩ : ℂ) = 0
  · have hx0 : x = 0 := congrArg Complex.re hz
    have hcs0 : Real.cos lat0 * Real.sqrt (1 - s ^ 2) = 0 := by
      rw [← habs, hz]
      simp
    rw [hz, Complex.arg_zero, Real.cos_zero, mul_one]
    nlinarith [hx0, hx_def, hcs0]
  · have hcos_arg := Complex.cos_arg hz
    have hre : (⟨x, y⟩ : ℂ).re = x := rfl
    rw [hcos_arg, hre, habs]
    have hcs_ne : Real.cos lat0 * Real.sqrt (1 - s ^ 2) ≠ 0 := by
      intro h0
      exact hz (Complex.abs.eq_zero.mp (habs.trans h0))
    field_simp
    linear_combination (Real.cos lat0 * Real.sqrt (1 - s ^ 2)) * hx_def

theorem rad_deg (x : ℝ) : radiansOf (degreesOf x) = x := by
  unfold degreesOf radiansOf
  field_simp

theorem sampler_dist_eq (lat_center lon_center radius_miles u bearing : ℝ)
    (hlat0 : -90 ≤ lat_center) (hlat1 : lat_center ≤ 90)
    (hv_ge : -1 ≤ 1 - u * (1 - Real.cos (radius_miles / R_EARTH_MILES)))
    (hv_le : 1 - u * (1 - Real.cos (radius_miles / R_EARTH_MILES)) ≤ 1) :
    greatCircleDistMiles
      (random_point_within_radius lat_center lon_center radius_miles u
        bearing).1
      (random_point_within_radius lat_center lon_center radius_miles u
        bearing).2 lat_center lon_center =
    R_EARTH_MILES * Real.arccos
      (1 - u * (1 - Real.cos (radius_miles / R_EARTH_MILES))) := by
  obtain ⟨hr0, hr1⟩ := rad_in_pi_half lat_center hlat0 hlat1
  have hc : 0 ≤ Real.cos (radiansOf lat_center) :=
    Real.cos_nonneg_of_mem_Icc ⟨hr0, hr1⟩
  unfold greatCircleDistMiles random_point_within_radius
  simp only [rad_deg, add_sub_cancel_left]
  rw [dest_inner_eq (radiansOf lat_center)
    (Real.arccos (1 - u * (1 - Real.cos (radius_miles / R_EARTH_MILES))))
    bearing hc (Real.arccos_nonneg _) (Real.arccos_le_pi _)]
  rw [Real.cos_arccos hv_ge hv_le]

/-- Amended C1: for centers whose latitude lies in the range -90 to 90
degrees, every nonnegative radius, and every pair of draws u in the unit
interval and bearing in the interval zero to two pi, the sampled point lies
at great-circle distance at most the radius from the center. -/
theorem sampler_within_radius (lat_center lon_center radius_miles u
    bearing : ℝ)
    (hlat0 : -90 ≤ lat_center) (hlat1 : lat_center ≤ 90)
    (hrad : 0 ≤ radius_miles) (hu0 : 0 ≤ u) (hu1 : u < 1)
    (hb0 : 0 ≤ bearing) (hb1 : bearing < 2 * Real.pi) :
    greatCircleDistMiles
      (random_point_within_radius lat_center lon_center radius_miles u
        bearing).1
      (random_point_within_radius lat_center lon_center radius_miles u
        bearing).2 lat_center lon_center ≤ radius_miles := by
  have hR : (0 : ℝ) < R_EARTH_MILES := by unfold R_EARTH_MILES; norm_num
  have hang0 : 0 ≤ radius_miles / R_EARTH_MILES := div_nonneg hrad hR.le
  have hcle := Real.cos_le_one (radius_miles / R_EARTH_MILES)
  have hcge := Real.neg_one_le_cos (radius_miles / R_EARTH_MILES)
  have hv_le : 1 - u * (1 - Real.cos (radius_miles / R_EARTH_MILES)) ≤ 1 := by
    nlinarith
  have hv_cos : Real.cos (radius_miles / R_EARTH_MILES) ≤
      1 - u * (1 - Real.cos (radius_miles / R_EARTH_MILES)) := by
    nlinarith
  have hv_ge : -1 ≤ 1 - u * (1 - Real.cos (radius_miles / R_EARTH_MILES)) :=
    le_trans hcge hv_cos
  rw [sampler_dist_eq lat_center lon_center radius_miles u bearing hlat0
    hlat1 hv_ge hv_le]
  have hradeq : radius_miles = R_EARTH_MILES *
      (radius_miles / R_EARTH_MILES) := by
    field_simp
  rcases le_or_lt (radius_miles / R_EARTH_MILES) Real.pi with hle | hgt
  · have hmono := Real.monotone_arcsin hv_cos
    have harc : Real.arccos
        (1 - u * (1 - Real.cos (radius_miles / R_EARTH_MILES))) ≤
        Real.arccos (Real.cos (radius_miles / R_EARTH_MILES)) := by
      rw [Real.arccos_eq_pi_div_two_sub_arcsin,
        Real.arccos_eq_pi_div_two_sub_arcsin]
      linarith
    rw [Real.arccos_cos hang0 hle] at harc
    have hfin := mul_le_mul_of_nonneg_left harc hR.le
    linarith [hradeq]
  · have hpi := Real.arccos_le_pi
      (1 - u * (1 - Real.cos (radius_miles / R_EARTH_MILES)))
    have h1 : R_EARTH_MILES * Real.arccos
        (1 - u * (1 - Real.cos (radius_miles / R_EARTH_MILES))) ≤
        R_EARTH_MILES * Real.pi := mul_le_mul_of_nonneg_left hpi hR.le
    have h2 : R_EARTH_MILES * Real.pi <
        R_EARTH_MILES * (radius_miles / R_EARTH_MILES) :=
      mul_lt_mul_of_pos_left hgt hR
    linarith [hradeq]

/-- Witness for the amended C1 at the zero center, zero radius and zero
draws. -/
theorem sampler_within_radius_witness :
    (-90 ≤ (0 : ℝ) ∧ (0 : ℝ) ≤ 90 ∧ 0 ≤ (0 : ℝ) ∧ 0 ≤ (0 : ℝ) ∧
      (0 : ℝ) < 1 ∧ 0 ≤ (0 : ℝ) ∧ (0 : ℝ) < 2 * Real.pi) ∧
    greatCircleDistMiles (random_point_within_radius 0 0 0 0 0).1
      (random_point_within_radius 0 0 0 0 0).2 0 0 ≤ 0 :=
  ⟨⟨by norm_num, by norm_num, le_refl 0, le_refl 0, by norm_num, le_refl 0,
      by positivity⟩,
    sampler_within_radius 0 0 0 0 0 (by norm_num) (by norm_num) (le_refl 0)
      (le_refl 0) (by norm_num) (le_refl 0) (by positivity)⟩

/-- Counterexample to C1 as stated: with the center at latitude 180 degrees
and longitude 0, radius 1 mile, and the in-range draws u equal 0 and bearing
equal 0, the sampler returns the point at latitude 0 and longitude 0, whose
great-circle distance to the center is pi times the Earth radius, far more
than 1 mile. -/
theorem sampler_within_radius_counterexample :
    0 ≤ (1 : ℝ) ∧ 0 ≤ (0 : ℝ) ∧ (0 : ℝ) < 1 ∧ 0 ≤ (0 : ℝ) ∧
      (0 : ℝ) < 2 * Real.pi ∧
    1 < greatCircleDistMiles (random_point_within_radius 180 0 1 0 0).1
      (random_point_within_radius 180 0 1 0 0).2 180 0 := by
  refine ⟨by norm_num, le_refl 0, by norm_num, le_refl 0, by positivity, ?_⟩
  have hrad180 : radiansOf 180 = Real.pi := by unfold radiansOf; ring
  have hrad0 : radiansOf 0 = 0 := by unfold radiansOf; ring
  have hdeg0 : degreesOf 0 = 0 := by unfold degreesOf; simp
  have hout : random_point_within_radius 180 0 1 0 0 = (0, 0) := by
    unfold random_point_within_radius
    simp only [hrad180, hrad0, zero_mul, sub_zero, Real.arccos_one,
      Real.sin_zero, Real.cos_zero, mul_one, mul_zero, add_zero,
      Real.sin_pi, Real.arcsin_zero, zero_add]
    rw [atan2_zero_of_nonneg 1 (by norm_num)]
    rw [hdeg0]
  rw [hout]
  unfold greatCircleDistMiles
  simp only [hrad180, hrad0, Real.sin_zero, Real.cos_zero, Real.sin_pi,
    Real.cos_pi, zero_mul, one_mul, mul_one, sub_self, Real.cos_zero,
    zero_add, mul_neg, neg_mul, Real.arccos_neg_one]
  unfold R_EARTH_MILES
  nlinarith [Real.pi_gt_three]
